import Mathlib

/-!
Verification of the Railway regulatory-document-analyzer service
(`railway_deployment.py`): a shallow embedding of its text-extraction
dispatch, Claude analysis call, and Flask request handlers, together with
theorems settling the specification claims.

Conventions of the embedding:
* JSON values are the inductive `JVal`; Python dicts become ordered
  association lists with Python's item-assignment semantics (`dictSet`).
* Library and runtime behaviour that the program treats as a black box
  (base64 decoding, PDF/DOCX parsing, UTF-8 decoding, the network call to
  the model, `json.loads`, Python runtime exception message strings, the
  rendered home template) is abstracted into an environment record `Env`.
* Fallible Python code is `Except String α`, the error being `str(e)`.
* Filesystem staging of uploads is tracked by an event trace (`Ev`):
  creation of the named temporary file, the extraction read, the outbound
  model call, and the `os.unlink`.
-/

/-- JSON values, as produced by `json.loads` / consumed by `jsonify`.
Objects are insertion-ordered association lists (Python 3.7+ dicts). -/
inductive JVal where
  | null : JVal
  | bool : Bool → JVal
  | num : Int → JVal
  | str : String → JVal
  | arr : List JVal → JVal
  | obj : List (String × JVal) → JVal

/-- Python truthiness (`bool(x)`) on JSON values: `None`, `False`, `0`,
`""`, `[]`, and the empty dict are falsy. -/
def pyTruthy : JVal → Bool
  | .null => false
  | .bool b => b
  | .num n => n != 0
  | .str s => s != ""
  | .arr l => !l.isEmpty
  | .obj o => !o.isEmpty

/-- Truthiness of a `dict.get` result: Python's `None` (absent key) is
falsy, otherwise the value's own truthiness decides. -/
def optTruthy : Option JVal → Bool
  | none => false
  | some v => pyTruthy v

/-- `d.get(k)`: first (= only, for parsed JSON) binding of `k`. -/
def dictGet (o : List (String × JVal)) (k : String) : Option JVal :=
  (o.find? (fun p => p.1 == k)).map (fun p => p.2)

/-- `d[k] = v` on a Python dict rendered as an ordered association list:
an existing key keeps its position and is overwritten, a new key is
appended at the end. -/
def dictSet (o : List (String × JVal)) (k : String) (v : JVal) :
    List (String × JVal) :=
  if o.any (fun p => p.1 == k) then
    o.map (fun p => if p.1 == k then (k, v) else p)
  else
    o ++ [(k, v)]

/-- Field lookup on a JSON value; `none` on non-objects. -/
def jGet : JVal → String → Option JVal
  | .obj o, k => dictGet o k
  | _, _ => none

/-- Raw document bytes (opaque to this development). -/
abbrev Bytes := List Nat

/-- `str.lower()`, character by character (the program only compares
lower-cased ASCII extensions). -/
def strLower (s : String) : String :=
  String.mk (s.toList.map Char.toLower)

/-- `str.strip()`: drop leading and trailing whitespace (ASCII whitespace
here; the handler only ever tests the result against the empty string). -/
def pyStrip (s : String) : String :=
  String.mk
    (((s.toList.dropWhile Char.isWhitespace).reverse.dropWhile
      Char.isWhitespace).reverse)

/-- Position of the last `'.'` in a character list (`str.rfind('.')`),
`none` when absent. -/
def rfindDot : List Char → Option Nat
  | [] => none
  | c :: cs =>
    match rfindDot cs with
    | some i => some (i + 1)
    | none => if c = '.' then some 0 else none

/-- Split a character list at `'/'` separators. -/
def splitSlash : List Char → List (List Char)
  | [] => [[]]
  | c :: cs =>
    let r := splitSlash cs
    if c = '/' then [] :: r
    else
      match r with
      | [] => [[c]]
      | h :: t => (c :: h) :: t

/-- `pathlib.PurePosixPath(p).name` as characters: the final path
component, with empty and `"."` components dropped by path parsing. -/
def pathNameChars (p : String) : List Char :=
  ((splitSlash p.toList).filter
    (fun cs => !cs.isEmpty && cs != ['.'])).getLastD []

/-- `pathlib.PurePosixPath(p).suffix`: from the last dot of the final
component, provided that dot is neither the first nor the last character
of the name; `""` otherwise. -/
def pathSuffix (p : String) : String :=
  let cs := pathNameChars p
  match rfindDot cs with
  | some i => if 0 < i && i < cs.length - 1 then String.mk (cs.drop i) else ""
  | none => ""

/-- The black-box surroundings of the program: libraries, the LLM
endpoint, and Python runtime exception rendering. Each fallible call
yields `Except String α` where the `String` is `str(e)` of the raised
exception. -/
structure Env where
  /-- `base64.b64decode` applied to the JSON value found in the request
  (a non-string argument raises, which the caller's `except` turns into
  an error path). -/
  b64decode : JVal → Except String Bytes
  /-- Page-concatenating PDF extraction (`PyPDF2`, `_parse_pdf`). -/
  extractPdf : Bytes → Except String String
  /-- Paragraph-concatenating DOCX extraction (`python-docx`, `_parse_docx`). -/
  extractDocx : Bytes → Except String String
  /-- UTF-8 decoding of a text file (`_parse_txt`). -/
  decodeUtf8 : Bytes → Except String String
  /-- `client.messages.create(...)` followed by `response.content[0].text`:
  the raw text the model returned for a prompt, or a network/API error. -/
  llmReply : String → Except String String
  /-- `json.loads` on the model's reply text. -/
  jsonParse : String → Except String JVal
  /-- `render_template_string` of the home page for a timestamp. -/
  renderHome : String → String
  /-- `str` of the `KeyError` raised by `d[k]` for a missing key `k`. -/
  keyErr : String → String
  /-- `str` of the `TypeError` raised by `Path(v)` for a non-string `v`. -/
  pathTypeErr : JVal → String
  /-- `str` of the `AttributeError` raised by `v.get(...)` on a non-dict `v`. -/
  getAttrErr : JVal → String
  /-- `str` of the error raised by iterating / subscripting a truthy
  non-list `documents` value. -/
  iterErr : JVal → String
  /-- `str` of the `TypeError` raised by item assignment on a non-dict
  JSON parse result. -/
  assignErr : JVal → String

/-- `RegulatoryAnalyzer.parse_file`: dispatch on the lower-cased path
suffix to the three supported extractors; any other suffix raises
`ValueError` naming the (original-case) suffix. The `except` block only
logs and re-raises, so errors propagate unchanged. -/
def parse_file (env : Env) (file_path : String) (content : Bytes) :
    Except String String :=
  if strLower (pathSuffix file_path) = ".pdf" then env.extractPdf content
  else if strLower (pathSuffix file_path) = ".docx" then
    env.extractDocx content
  else if strLower (pathSuffix file_path) = ".txt" then
    env.decodeUtf8 content
  else .error ("Unsupported file type: " ++ pathSuffix file_path)

/-- Literal text of the analysis f-string before the interpolation of
`document_text[:15000]`. -/
def promptHead : String :=
  "\n        Please analyze this regulatory warning letter or notice for internal audit purposes. \n        \n        Provide a structured analysis in JSON format with the following sections:\n\n        1. document_type: Type of regulatory document (warning letter, notice, citation, etc.)\n        2. regulatory_body: Which agency issued this (FDA, OSHA, EPA, etc.)\n        3. severity_level: High/Medium/Low based on language and consequences mentioned\n        4. key_violations: List of main violations or issues identified\n        5. compliance_areas: Specific regulatory areas affected (GMP, safety, environmental, etc.)\n        6. deadlines: Any response or corrective action deadlines mentioned\n        7. potential_penalties: Financial penalties or other consequences mentioned\n        8. audit_focus_areas: Specific areas internal audit should prioritize based on this notice\n        9. recommended_actions: Immediate and long-term actions to address issues\n        10. risk_assessment: Overall risk level and potential business impact\n        11. similar_patterns: Any patterns that might indicate systemic issues\n        12. executive_summary: 2-3 sentence summary for leadership\n\n        Document text:\n        "

/-- Literal text of the analysis f-string after the interpolation. -/
def promptTail : String := "\n        \n        Respond only with valid JSON.\n        "

/-- The `analysis_prompt` f-string: the fixed instruction with
`document_text[:15000]` (the first 15,000 characters) interpolated. -/
def analysisPrompt (document_text : String) : String :=
  promptHead ++ document_text.take 15000 ++ promptTail

/-- The twelve sections the prompt requests, in request order. -/
def twelveKeys : List String :=
  ["document_type", "regulatory_body", "severity_level", "key_violations",
   "compliance_areas", "deadlines", "potential_penalties", "audit_focus_areas",
   "recommended_actions", "risk_assessment", "similar_patterns",
   "executive_summary"]

/-- `RegulatoryAnalyzer.analyze_document`: build the prompt, call the
model, `json.loads` the reply, then add the two metadata items
(`analysis_timestamp` from `datetime.now().isoformat()`, modelled by the
`now` argument, and `document_length` from `len(document_text)`). Item
assignment on a non-dict parse result raises `TypeError`; all errors
propagate (the `except` block only logs and re-raises). -/
def analyze (env : Env) (now : String) (document_text : String) :
    Except String JVal :=
  match env.llmReply (analysisPrompt document_text) with
  | .error e => .error e
  | .ok replyText =>
    match env.jsonParse replyText with
    | .error e => .error e
    | .ok v =>
      match v with
      | .obj o =>
        .ok (.obj (dictSet
          (dictSet o "analysis_timestamp" (.str now))
          "document_length" (.num document_text.length)))
      | v => .error (env.assignErr v)

/-- Observable side effects of one request: staging the named temporary
file, the extraction read of it, the outbound model call (identified by
its prompt), and the `os.unlink` of the staged file. -/
inductive Ev where
  | create : String → Ev
  | extract : String → Ev
  | llmCall : String → Ev
  | unlink : String → Ev
deriving DecidableEq

/-- The JSON error payload `jsonify({'success': False, 'error': msg})`. -/
def errObj (msg : String) : JVal :=
  .obj [("success", .bool false), ("error", .str msg)]

/-- Name that `tempfile.NamedTemporaryFile` picks for the `i`-th staged
document of a request (random and dot-free in reality; deterministic
here), before the caller-supplied suffix is appended. -/
def tempStem (i : Nat) : String := "/tmp/tmp" ++ toString i

/-- An HTTP response: status code and JSON body. -/
abbrev HResp := Nat × JVal

/-- The `try`-block of the `/analyze` handler that runs with the staged
temporary file in place (extraction, the empty-text check, analysis, and
the success payload), paired with the events it emits. `Except.error` is
an exception escaping to the handler's outer `except`. -/
def analyzeInner (env : Env) (now : String) (file_name tpath : String)
    (content : Bytes) : Except String HResp × List Ev :=
  match parse_file env tpath content with
  | .error e => (.error e, [.extract tpath])
  | .ok document_text =>
    if pyStrip document_text = "" then
      (.ok (400, errObj "No text could be extracted from the document"),
       [.extract tpath])
    else
      match analyze env now document_text with
      | .error e =>
        (.error e, [.extract tpath, .llmCall (analysisPrompt document_text)])
      | .ok analysis_result =>
        (.ok (200, .obj
          [("success", .bool true),
           ("analysis", analysis_result),
           ("processedAt", .str now),
           ("fileName", .str file_name),
           ("documentLength", .num document_text.length)]),
         [.extract tpath, .llmCall (analysisPrompt document_text)])

/-- The `POST /analyze` handler. `body` is `request.get_json()` (with
`none` for Python's `None`). Gates in source order: truthy JSON data,
truthy `fileContent` and `fileName`, base64 decoding, then the staged
extraction/analysis block with its `finally: os.unlink` (whose own
failure is swallowed); exceptions reach the outer `except` and become a
500. -/
def analyzeHandler (env : Env) (now : String) (body : Option JVal) :
    HResp × List Ev :=
  match body with
  | none => ((400, errObj "No JSON data provided"), [])
  | some data =>
    if !pyTruthy data then ((400, errObj "No JSON data provided"), [])
    else
      match data with
      | .obj o =>
        let file_content_b64 := dictGet o "fileContent"
        let file_name_v := dictGet o "fileName"
        if !optTruthy file_content_b64 || !optTruthy file_name_v then
          ((400, errObj "fileContent and fileName are required"), [])
        else
          match env.b64decode (file_content_b64.getD .null) with
          | .error e => ((400, errObj ("Invalid base64 content: " ++ e)), [])
          | .ok file_content =>
            match file_name_v.getD .null with
            | .str file_name =>
              let tpath := tempStem 0 ++ pathSuffix file_name
              let inner := analyzeInner env now file_name tpath file_content
              let resp : HResp :=
                match inner.1 with
                | .ok r => r
                | .error e => (500, errObj ("Internal server error: " ++ e))
              (resp, .create tpath :: inner.2 ++ [.unlink tpath])
            | v =>
              ((500, errObj ("Internal server error: " ++ env.pathTypeErr v)),
               [])
      | v =>
        ((500, errObj ("Internal server error: " ++ env.getAttrErr v)), [])

/-- The error record one batch entry gets from the per-entry `except`:
`fileName` from `doc.get('fileName', 'unknown')`, `error` from `str(e)`. -/
def errEntry (d : List (String × JVal)) (e : String) : JVal :=
  .obj [("success", .bool false),
        ("fileName", (dictGet d "fileName").getD (.str "unknown")),
        ("error", .str e)]

/-- One iteration of the batch loop on document `doc` (the `i`-th, which
fixes the temporary file's name). `Except.error` is an exception escaping
the per-entry `except` block itself (only possible when `doc` is not a
dict, where `doc.get` in the handler raises `AttributeError`). -/
def processOne (env : Env) (now : String) (i : Nat) (doc : JVal) :
    Except String JVal × List Ev :=
  match doc with
  | .obj d =>
    match dictGet d "fileContent" with
    | none => (.ok (errEntry d (env.keyErr "fileContent")), [])
    | some fc =>
      match env.b64decode fc with
      | .error e => (.ok (errEntry d e), [])
      | .ok file_content =>
        match dictGet d "fileName" with
        | none => (.ok (errEntry d (env.keyErr "fileName")), [])
        | some fnv =>
          match fnv with
          | .str file_name =>
            let tpath := tempStem i ++ pathSuffix file_name
            let inner : Except String JVal × List Ev :=
              match parse_file env tpath file_content with
              | .error e => (.error e, [.extract tpath])
              | .ok document_text =>
                match analyze env now document_text with
                | .error e =>
                  (.error e,
                   [.extract tpath, .llmCall (analysisPrompt document_text)])
                | .ok analysis_result =>
                  (.ok (.obj
                    [("success", .bool true),
                     ("fileName", .str file_name),
                     ("analysis", analysis_result)]),
                   [.extract tpath, .llmCall (analysisPrompt document_text)])
            let entry : JVal :=
              match inner.1 with
              | .ok v => v
              | .error e => errEntry d e
            (.ok entry, .create tpath :: inner.2 ++ [.unlink tpath])
          | v => (.ok (errEntry d (env.pathTypeErr v)), [])
  | v => (.error (env.getAttrErr v), [])

/-- The `for doc in documents` loop collecting `results`, threaded with
the index used for temporary-file naming. An exception escaping a
per-entry `except` aborts the remainder of the loop. -/
def batchLoop (env : Env) (now : String) (i : Nat) :
    List JVal → Except String (List JVal) × List Ev
  | [] => (.ok [], [])
  | doc :: rest =>
    match processOne env now i doc with
    | (.error e, ev) => (.error e, ev)
    | (.ok entry, ev) =>
      let (r, evs) := batchLoop env now (i + 1) rest
      (r.map (fun l => entry :: l), ev ++ evs)

/-- The result entry the `i`-th document produces, considered on its own. -/
def entryOf (env : Env) (now : String) (i : Nat) (doc : JVal) : JVal :=
  match (processOne env now i doc).1 with
  | .ok entry => entry
  | .error e => errEntry [] e

/-- The batch results list, entry by entry (used to state that the loop
treats entries independently). -/
def batchEntries (env : Env) (now : String) (i : Nat) : List JVal → List JVal
  | [] => []
  | doc :: rest => entryOf env now i doc :: batchEntries env now (i + 1) rest

/-- The `POST /batch-analyze` handler. There is no `if not data` guard:
a `None` or non-dict body raises `AttributeError` at `data.get` and
becomes a 500. A missing `documents` key defaults to `[]`; a falsy value
is the 400 "No documents provided"; a truthy non-list raises while
iterating (or in the first entry's `except`) and becomes a 500. -/
def batchHandler (env : Env) (now : String) (body : Option JVal) :
    HResp × List Ev :=
  match body with
  | none =>
    ((500, errObj ("Internal server error: " ++ env.getAttrErr .null)), [])
  | some data =>
    match data with
    | .obj o =>
      let documents := (dictGet o "documents").getD (.arr [])
      if !pyTruthy documents then
        ((400, errObj "No documents provided"), [])
      else
        match documents with
        | .arr docs =>
          match batchLoop env now 0 docs with
          | (.ok results, ev) =>
            ((200, .obj
              [("success", .bool true),
               ("totalDocuments", .num docs.length),
               ("results", .arr results),
               ("processedAt", .str now)]), ev)
          | (.error e, ev) =>
            ((500, errObj ("Internal server error: " ++ e)), ev)
        | v =>
          ((500, errObj ("Internal server error: " ++ env.iterErr v)), [])
    | v =>
      ((500, errObj ("Internal server error: " ++ env.getAttrErr v)), [])

/-- A response body: JSON from `jsonify`, or rendered HTML. -/
inductive Body where
  | json : JVal → Body
  | html : String → Body

/-- The 404 error handler's payload. -/
def notFoundBody : JVal :=
  .obj [("error", .str "Endpoint not found"),
        ("available_endpoints", .arr
          [.str "/analyze", .str "/batch-analyze", .str "/health",
           .str "/test"])]

/-- The `/health` payload: static service data plus the current time. -/
def healthBody (now : String) : JVal :=
  .obj [("status", .str "healthy"),
        ("timestamp", .str now),
        ("service", .str "Regulatory Document Analyzer"),
        ("version", .str "1.0.0")]

/-- The `/test` endpoint's payload for each method. -/
def testBody (now : String) (method : String) (body : Option JVal) : JVal :=
  if method = "GET" then
    .obj [("message", .str "Test endpoint is working"),
          ("method", .str "GET"),
          ("timestamp", .str now)]
  else
    .obj [("message", .str "Test endpoint received POST data"),
          ("data", body.getD .null),
          ("timestamp", .str now)]

/-- The registered routes, each with its allowed methods. -/
def routeTable : List (String × List String) :=
  [("/", ["GET"]),
   ("/analyze", ["POST"]),
   ("/batch-analyze", ["POST"]),
   ("/health", ["GET"]),
   ("/test", ["GET", "POST"])]

/-- Flask dispatch over the app's routes: an unknown path falls through
to the registered 404 handler; a known path with a disallowed method is
Flask's default 405 page (HTML, no custom handler). -/
def service (env : Env) (now : String) (method path : String)
    (body : Option JVal) : (Nat × Body) × List Ev :=
  match (routeTable.find? (fun r => r.1 == path)).map (fun r => r.2) with
  | none => ((404, .json notFoundBody), [])
  | some methods =>
    if method ∈ methods then
      if path = "/analyze" then
        let (r, ev) := analyzeHandler env now body
        ((r.1, .json r.2), ev)
      else if path = "/batch-analyze" then
        let (r, ev) := batchHandler env now body
        ((r.1, .json r.2), ev)
      else if path = "/health" then ((200, .json (healthBody now)), [])
      else if path = "/test" then ((200, .json (testBody now method body)), [])
      else ((200, .html (env.renderHome now)), [])
    else ((405, .html "405 Method Not Allowed"), [])

/-! ### Association-list lemmas for Python dict item assignment -/

theorem dictSet_of_not_mem {o : List (String × JVal)} {k : String} (v : JVal)
    (h : k ∉ o.map Prod.fst) : dictSet o k v = o ++ [(k, v)] := by
  have ha : o.any (fun p => p.1 == k) = false := by
    rw [List.any_eq_false]
    rintro ⟨a, b⟩ hp
    simp only [beq_iff_eq]
    intro he
    exact h (he ▸ List.mem_map_of_mem Prod.fst hp)
  unfold dictSet
  rw [ha]
  simp

theorem dictGet_map_overwrite (k : String) (v : JVal) :
    ∀ o : List (String × JVal), o.any (fun p => p.1 == k) = true →
      dictGet (o.map (fun p => if p.1 == k then (k, v) else p)) k = some v := by
  intro o
  induction o with
  | nil => intro h; simp at h
  | cons p rest ih =>
    intro ha
    by_cases hp : (p.1 == k) = true
    · simp only [List.map_cons, if_pos hp]
      unfold dictGet
      rw [List.find?_cons_of_pos _ (by simp)]
      rfl
    · have hrest : rest.any (fun q => q.1 == k) = true := by
        simp only [List.any_cons, Bool.or_eq_true] at ha
        exact ha.resolve_left hp
      simp only [List.map_cons, if_neg hp]
      unfold dictGet
      rw [List.find?_cons_of_neg _ (by simpa using hp)]
      exact ih hrest

theorem dictGet_append_single (k : String) (v : JVal)
    (o : List (String × JVal)) (h : o.any (fun p => p.1 == k) = false) :
    dictGet (o ++ [(k, v)]) k = some v := by
  induction o with
  | nil =>
    unfold dictGet
    rw [List.nil_append, List.find?_cons_of_pos _ (by simp)]
    rfl
  | cons p rest ih =>
    simp only [List.any_cons, Bool.or_eq_false_iff] at h
    unfold dictGet
    rw [List.cons_append, List.find?_cons_of_neg _ (by simp [h.1])]
    exact ih h.2

theorem dictGet_dictSet_self (o : List (String × JVal)) (k : String)
    (v : JVal) : dictGet (dictSet o k v) k = some v := by
  unfold dictSet
  by_cases ha : o.any (fun p => p.1 == k) = true
  · rw [if_pos ha]
    exact dictGet_map_overwrite k v o ha
  · rw [if_neg ha]
    cases hb : o.any (fun p => p.1 == k) with
    | false => exact dictGet_append_single k v o hb
    | true => exact absurd hb ha

/-! ### Witness environments -/

/-- A concrete environment where every black-box call succeeds and the
model's reply parses to the empty JSON object. -/
def envW : Env where
  b64decode := fun v =>
    match v with
    | .str s => .ok (s.toList.map Char.toNat)
    | _ => .error "argument should be a bytes-like object or ASCII string"
  extractPdf := fun _ => .ok "pdf text"
  extractDocx := fun _ => .ok "docx text"
  decodeUtf8 := fun _ => .ok "hello world"
  llmReply := fun _ => .ok "reply"
  jsonParse := fun _ => .ok (.obj [])
  renderHome := fun t => t
  keyErr := fun k => "KeyError: " ++ k
  pathTypeErr := fun _ => "expected str, bytes or os.PathLike object"
  getAttrErr := fun _ => "object has no attribute get"
  iterErr := fun _ => "object is not iterable"
  assignErr := fun _ => "object does not support item assignment"

/-- The twelve-section object a well-behaved model reply parses to. -/
def twelvePairs : List (String × JVal) :=
  twelveKeys.map (fun k => (k, JVal.str ("value of " ++ k)))

/-- Like `envW`, but the model's reply parses to `twelvePairs`. -/
def envTwelve : Env :=
  { envW with jsonParse := fun _ => .ok (.obj twelvePairs) }

/-! ### C1 -/

/-- C1: the prompt `analyze` sends to the model embeds only the first
15,000 characters of the input text (texts agreeing on that prefix yield
the identical prompt), while the `document_length` metadata field of a
successful result is the character count of the full pre-truncation
input. -/
theorem C1_truncation_and_document_length (env : Env) (now t1 t2 : String)
    (r : JVal) (hpre : t1.take 15000 = t2.take 15000)
    (hok : analyze env now t1 = .ok r) :
    analysisPrompt t1 = analysisPrompt t2 ∧
    jGet r "document_length" = some (.num t1.length) := by
  constructor
  · unfold analysisPrompt
    rw [hpre]
  · unfold analyze at hok
    split at hok
    · exact Except.noConfusion hok
    · split at hok
      · exact Except.noConfusion hok
      · split at hok
        · rename_i o _
          have h := Except.ok.inj hok
          subst h
          simp only [jGet]
          exact dictGet_dictSet_self _ _ _
        · exact Except.noConfusion hok

/-- C1 witness: a concrete run of `analyze`. -/
theorem C1_witness :
    analysisPrompt "abc" = analysisPrompt "abc" ∧
    jGet (JVal.obj [("analysis_timestamp", JVal.str "2025-01-01T00:00:00"),
      ("document_length", JVal.num 3)]) "document_length" =
      some (JVal.num 3) :=
  C1_truncation_and_document_length envW "2025-01-01T00:00:00" "abc" "abc" _
    rfl rfl

/-! ### C2 -/

/-- C2: when the model's reply parses to a JSON object whose keys are
(a permutation of) the twelve requested sections, `analyze` returns
exactly that object extended with exactly the two metadata keys
`analysis_timestamp` (the ISO-format current time) and `document_length`
(the input text's length), all twelve original bindings unchanged. -/
theorem C2_roundtrip (env : Env) (now text reply : String)
    (o : List (String × JVal))
    (hr : env.llmReply (analysisPrompt text) = .ok reply)
    (hp : env.jsonParse reply = .ok (.obj o))
    (hk : (o.map Prod.fst).Perm twelveKeys) :
    analyze env now text = .ok (.obj (o ++
      [("analysis_timestamp", .str now),
       ("document_length", .num text.length)])) := by
  have hts : "analysis_timestamp" ∉ o.map Prod.fst := fun h =>
    absurd (hk.mem_iff.mp h) (by decide)
  have hdl : "document_length" ∉ o.map Prod.fst := fun h =>
    absurd (hk.mem_iff.mp h) (by decide)
  unfold analyze
  rw [hr]
  dsimp only
  rw [hp]
  dsimp only
  rw [dictSet_of_not_mem _ hts]
  rw [dictSet_of_not_mem _ (by
    rw [List.map_append]
    simp only [List.mem_append]
    rintro (h | h)
    · exact hdl h
    · simp at h)]
  rw [List.append_assoc]
  rfl

/-- C2 witness: a mocked model echoing a fixed twelve-key object. -/
theorem C2_witness :
    analyze envTwelve "2025-01-01T00:00:00" "doc" = .ok (.obj (twelvePairs ++
      [("analysis_timestamp", .str "2025-01-01T00:00:00"),
       ("document_length", .num 3)])) :=
  C2_roundtrip envTwelve "2025-01-01T00:00:00" "doc" "reply" twelvePairs
    rfl rfl (List.Perm.refl _)

/-! ### Reduction lemmas for the single-document handler -/

theorem analyzeInner_parse_error {env : Env} {now file_name tpath : String}
    {content : Bytes} {e : String}
    (h : parse_file env tpath content = .error e) :
    analyzeInner env now file_name tpath content = (.error e, [.extract tpath]) := by
  simp [analyzeInner, h]

theorem analyzeInner_empty_text {env : Env} {now file_name tpath : String}
    {content : Bytes} {document_text : String}
    (h : parse_file env tpath content = .ok document_text)
    (ht : pyStrip document_text = "") :
    analyzeInner env now file_name tpath content =
      (.ok (400, errObj "No text could be extracted from the document"),
       [.extract tpath]) := by
  simp [analyzeInner, h, ht]

theorem analyzeInner_analyze_error {env : Env} {now file_name tpath : String}
    {content : Bytes} {document_text e : String}
    (h : parse_file env tpath content = .ok document_text)
    (ht : pyStrip document_text ≠ "")
    (ha : analyze env now document_text = .error e) :
    analyzeInner env now file_name tpath content =
      (.error e,
       [.extract tpath, .llmCall (analysisPrompt document_text)]) := by
  simp [analyzeInner, h, ht, ha]

theorem analyzeInner_ok {env : Env} {now file_name tpath : String}
    {content : Bytes} {document_text : String} {ar : JVal}
    (h : parse_file env tpath content = .ok document_text)
    (ht : pyStrip document_text ≠ "")
    (ha : analyze env now document_text = .ok ar) :
    analyzeInner env now file_name tpath content =
      (.ok (200, .obj
        [("success", .bool true),
         ("analysis", ar),
         ("processedAt", .str now),
         ("fileName", .str file_name),
         ("documentLength", .num document_text.length)]),
       [.extract tpath, .llmCall (analysisPrompt document_text)]) := by
  simp [analyzeInner, h, ht, ha]

/-- With truthy `fileContent` and `fileName` (a string) and decodable
base64, the `/analyze` handler reaches the staged block: its response is
the inner result (500-wrapped on exceptions) and its trace brackets the
inner events with the temp-file creation and unlink. -/
theorem analyzeHandler_staged (env : Env) (now : String)
    (o : List (String × JVal)) (fc : JVal) (content : Bytes)
    (file_name : String)
    (hfc : dictGet o "fileContent" = some fc)
    (hfcT : pyTruthy fc = true)
    (hfn : dictGet o "fileName" = some (.str file_name))
    (hfnT : file_name ≠ "")
    (hdec : env.b64decode fc = .ok content) :
    analyzeHandler env now (some (.obj o)) =
      ((match (analyzeInner env now file_name
          (tempStem 0 ++ pathSuffix file_name) content).1 with
        | .ok r => r
        | .error e => (500, errObj ("Internal server error: " ++ e))),
       .create (tempStem 0 ++ pathSuffix file_name) ::
         (analyzeInner env now file_name
           (tempStem 0 ++ pathSuffix file_name) content).2
         ++ [.unlink (tempStem 0 ++ pathSuffix file_name)]) := by
  have hne : o.isEmpty = false := by
    cases o with
    | nil => simp [dictGet] at hfc
    | cons p rest => rfl
  have hdataT : pyTruthy (.obj o) = true := by
    simp [pyTruthy, hne]
  have hoptfc : optTruthy (some fc) = true := hfcT
  have hoptfn : optTruthy (some (.str file_name)) = true := by
    simpa [optTruthy, pyTruthy] using hfnT
  simp only [analyzeHandler, hfc, hfn, hdec, hdataT, hoptfc, hoptfn,
    Option.getD_some, Bool.not_true, Bool.or_self, Bool.false_or]
  simp

/-! ### C6 -/

/-- C6: `parse_file` dispatches on the case-insensitive extension of the
file path; `.pdf`, `.docx` and `.txt` go to the respective extractor,
and every other extension yields only the "Unsupported file type" error
naming that extension. -/
theorem C6_extract_dispatch (env : Env) (p : String) (c : Bytes) :
    (strLower (pathSuffix p) = ".pdf" →
      parse_file env p c = env.extractPdf c) ∧
    (strLower (pathSuffix p) = ".docx" →
      parse_file env p c = env.extractDocx c) ∧
    (strLower (pathSuffix p) = ".txt" →
      parse_file env p c = env.decodeUtf8 c) ∧
    (strLower (pathSuffix p) ∉ ([".pdf", ".docx", ".txt"] : List String) →
      parse_file env p c = .error ("Unsupported file type: " ++ pathSuffix p)) := by
  refine ⟨fun h => ?_, fun h => ?_, fun h => ?_, fun h => ?_⟩
  · simp [parse_file, h]
  · simp [parse_file, h]
  · simp [parse_file, h]
  · have h1 : strLower (pathSuffix p) ≠ ".pdf" := fun e => h (by rw [e]; decide)
    have h2 : strLower (pathSuffix p) ≠ ".docx" := fun e => h (by rw [e]; decide)
    have h3 : strLower (pathSuffix p) ≠ ".txt" := fun e => h (by rw [e]; decide)
    simp [parse_file, h1, h2, h3]

/-- C6 witness: upper-case variants of the supported extensions dispatch,
and `.xlsx` is rejected with an error naming it. -/
theorem C6_witness :
    parse_file envW "REPORT.PDF" [] = envW.extractPdf [] ∧
    parse_file envW "memo.DocX" [] = envW.extractDocx [] ∧
    parse_file envW "notes.TXT" [] = envW.decodeUtf8 [] ∧
    parse_file envW "sheet.xlsx" [] = .error "Unsupported file type: .xlsx" :=
  ⟨(C6_extract_dispatch envW "REPORT.PDF" []).1 (by decide),
   (C6_extract_dispatch envW "memo.DocX" []).2.1 (by decide),
   (C6_extract_dispatch envW "notes.TXT" []).2.2.1 (by decide),
   (C6_extract_dispatch envW "sheet.xlsx" []).2.2.2 (by decide)⟩

/-! ### C5 -/

/-- C5: a model reply that is not valid JSON makes `analyze` fail with
that parse error (no partial or default result); any reply parsing to a
JSON object succeeds regardless of its keys (parse success is the only
check — the 12 keys are not validated); and an `analyze` failure
surfaces from the `/analyze` endpoint as an HTTP 500. -/
theorem C5_non_json_reply :
    (∀ (env : Env) (now text reply e : String),
      env.llmReply (analysisPrompt text) = .ok reply →
      env.jsonParse reply = .error e →
      analyze env now text = .error e) ∧
    (∀ (env : Env) (now text reply : String) (o : List (String × JVal)),
      env.llmReply (analysisPrompt text) = .ok reply →
      env.jsonParse reply = .ok (.obj o) →
      ∃ r, analyze env now text = .ok r) ∧
    (∀ (env : Env) (now : String) (o : List (String × JVal)) (fc : JVal)
       (content : Bytes) (file_name document_text e : String),
      dictGet o "fileContent" = some fc →
      pyTruthy fc = true →
      dictGet o "fileName" = some (.str file_name) →
      file_name ≠ "" →
      env.b64decode fc = .ok content →
      parse_file env (tempStem 0 ++ pathSuffix file_name) content =
        .ok document_text →
      pyStrip document_text ≠ "" →
      analyze env now document_text = .error e →
      (analyzeHandler env now (some (.obj o))).1 =
        (500, errObj ("Internal server error: " ++ e))) := by
  refine ⟨?_, ?_, ?_⟩
  · intro env now text reply e hr hp
    unfold analyze
    rw [hr]
    dsimp only
    rw [hp]
  · intro env now text reply o hr hp
    refine ⟨.obj (dictSet (dictSet o "analysis_timestamp" (.str now))
      "document_length" (.num text.length)), ?_⟩
    unfold analyze
    rw [hr]
    dsimp only
    rw [hp]
  · intro env now o fc content file_name document_text e hfc hfcT hfn hfnT
      hdec hparse htrim hana
    rw [analyzeHandler_staged env now o fc content file_name hfc hfcT hfn
      hfnT hdec]
    rw [analyzeInner_analyze_error hparse htrim hana]

/-- C5 witness: with a reply `json.loads` rejects, `analyze` fails and
the endpoint answers 500. -/
theorem C5_witness :
    (analyze { envW with jsonParse := fun _ => .error "Expecting value" }
      "2025-01-01T00:00:00" "doc" = .error "Expecting value") ∧
    ((analyzeHandler { envW with jsonParse := fun _ => .error "Expecting value" }
      "2025-01-01T00:00:00"
      (some (.obj [("fileContent", .str "aGk="), ("fileName", .str "a.txt")]))).1 =
      (500, errObj "Internal server error: Expecting value")) := by
  constructor
  · exact C5_non_json_reply.1 _ "2025-01-01T00:00:00" "doc" "reply"
      "Expecting value" rfl rfl
  · exact C5_non_json_reply.2.2 _ "2025-01-01T00:00:00"
      [("fileContent", .str "aGk="), ("fileName", .str "a.txt")]
      (.str "aGk=") _ "a.txt" "hello world" "Expecting value"
      rfl rfl rfl (by decide) rfl rfl (by decide) rfl

/-- With a truthy JSON object body, a falsy (or absent) `fileContent` or
`fileName` short-circuits the `/analyze` handler to the "required" 400. -/
theorem analyzeHandler_required_error (env : Env) (now : String)
    (o : List (String × JVal)) (hne : o.isEmpty = false)
    (hreq : (!optTruthy (dictGet o "fileContent") ||
      !optTruthy (dictGet o "fileName")) = true) :
    analyzeHandler env now (some (.obj o)) =
      ((400, errObj "fileContent and fileName are required"), []) := by
  have hdataT : pyTruthy (.obj o) = true := by
    simp [pyTruthy, hne]
  simp only [analyzeHandler, hdataT, hreq, Bool.not_true]
  simp

/-- With truthy fields but undecodable base64, the `/analyze` handler
answers 400 naming the decode failure. -/
theorem analyzeHandler_b64_error (env : Env) (now : String)
    (o : List (String × JVal)) (fc fnv : JVal) (e : String)
    (hfc : dictGet o "fileContent" = some fc)
    (hfcT : pyTruthy fc = true)
    (hfn : dictGet o "fileName" = some fnv)
    (hfnT : pyTruthy fnv = true)
    (hdec : env.b64decode fc = .error e) :
    analyzeHandler env now (some (.obj o)) =
      ((400, errObj ("Invalid base64 content: " ++ e)), []) := by
  have hne : o.isEmpty = false := by
    cases o with
    | nil => simp [dictGet] at hfc
    | cons p rest => rfl
  have hdataT : pyTruthy (.obj o) = true := by
    simp [pyTruthy, hne]
  have hoptfc : optTruthy (some fc) = true := hfcT
  have hoptfn : optTruthy (some fnv) = true := hfnT
  simp only [analyzeHandler, hfc, hfn, hdec, hdataT, hoptfc, hoptfn,
    Option.getD_some, Bool.not_true, Bool.or_self]
  simp

/-! ### C7 -/

/-- C7: the `/analyze` handler's gates fire in source order — the
field-requirement check, then base64 decoding, then the empty-text check,
then analysis — the first three failing with distinct 400 messages, an
analysis failure with a 500, and every error payload carrying
`success: false` and a human-readable `error` string. -/
theorem C7_validation_order :
    (∀ (env : Env) (now : String) (o : List (String × JVal)),
      o.isEmpty = false →
      (!optTruthy (dictGet o "fileContent") ||
        !optTruthy (dictGet o "fileName")) = true →
      (analyzeHandler env now (some (.obj o))).1 =
        (400, errObj "fileContent and fileName are required")) ∧
    (∀ (env : Env) (now : String) (o : List (String × JVal)) (fc fnv : JVal)
       (e : String),
      dictGet o "fileContent" = some fc → pyTruthy fc = true →
      dictGet o "fileName" = some fnv → pyTruthy fnv = true →
      env.b64decode fc = .error e →
      (analyzeHandler env now (some (.obj o))).1 =
        (400, errObj ("Invalid base64 content: " ++ e))) ∧
    (∀ (env : Env) (now : String) (o : List (String × JVal)) (fc : JVal)
       (content : Bytes) (file_name document_text : String),
      dictGet o "fileContent" = some fc → pyTruthy fc = true →
      dictGet o "fileName" = some (.str file_name) → file_name ≠ "" →
      env.b64decode fc = .ok content →
      parse_file env (tempStem 0 ++ pathSuffix file_name) content =
        .ok document_text →
      pyStrip document_text = "" →
      (analyzeHandler env now (some (.obj o))).1 =
        (400, errObj "No text could be extracted from the document")) ∧
    (∀ (env : Env) (now : String) (o : List (String × JVal)) (fc : JVal)
       (content : Bytes) (file_name document_text e : String),
      dictGet o "fileContent" = some fc → pyTruthy fc = true →
      dictGet o "fileName" = some (.str file_name) → file_name ≠ "" →
      env.b64decode fc = .ok content →
      parse_file env (tempStem 0 ++ pathSuffix file_name) content =
        .ok document_text →
      pyStrip document_text ≠ "" →
      analyze env now document_text = .error e →
      (analyzeHandler env now (some (.obj o))).1 =
        (500, errObj ("Internal server error: " ++ e))) ∧
    ((∀ e : String,
      "Invalid base64 content: " ++ e ≠ "fileContent and fileName are required" ∧
      "Invalid base64 content: " ++ e ≠
        "No text could be extracted from the document") ∧
     "fileContent and fileName are required" ≠
       "No text could be extracted from the document") ∧
    (∀ msg : String,
      jGet (errObj msg) "success" = some (.bool false) ∧
      jGet (errObj msg) "error" = some (.str msg)) := by
  refine ⟨?_, ?_, ?_, ?_, ⟨?_, by decide⟩, fun msg => ⟨rfl, rfl⟩⟩
  · intro env now o hne hreq
    rw [analyzeHandler_required_error env now o hne hreq]
  · intro env now o fc fnv e hfc hfcT hfn hfnT hdec
    rw [analyzeHandler_b64_error env now o fc fnv e hfc hfcT hfn hfnT hdec]
  · intro env now o fc content file_name document_text hfc hfcT hfn hfnT
      hdec hparse htrim
    rw [analyzeHandler_staged env now o fc content file_name hfc hfcT hfn
      hfnT hdec]
    rw [analyzeInner_empty_text hparse htrim]
  · intro env now o fc content file_name document_text e hfc hfcT hfn hfnT
      hdec hparse htrim hana
    rw [analyzeHandler_staged env now o fc content file_name hfc hfcT hfn
      hfnT hdec]
    rw [analyzeInner_analyze_error hparse htrim hana]
  · intro e
    constructor
    · intro h
      have hd := congrArg String.data h
      rw [String.data_append] at hd
      have hpre : "Invalid base64 content: ".data <+:
          "fileContent and fileName are required".data := ⟨e.data, hd⟩
      revert hpre
      decide
    · intro h
      have hd := congrArg String.data h
      rw [String.data_append] at hd
      have hpre : "Invalid base64 content: ".data <+:
          "No text could be extracted from the document".data := ⟨e.data, hd⟩
      revert hpre
      decide

/-- An environment whose base64 decoder always rejects. -/
def envBadB64 : Env := { envW with b64decode := fun _ => .error "Incorrect padding" }

/-- An environment whose TXT extraction yields the empty string. -/
def envEmptyTxt : Env := { envW with decodeUtf8 := fun _ => .ok "" }

/-- An environment whose model call fails. -/
def envLlmDown : Env := { envW with llmReply := fun _ => .error "Connection error" }

/-- C7 witness: one concrete request per gate. -/
theorem C7_witness :
    (analyzeHandler envW "T" (some (.obj [("fileContent", .str "aGk=")]))).1 =
      (400, errObj "fileContent and fileName are required") ∧
    (analyzeHandler envBadB64 "T" (some (.obj
      [("fileContent", .str "!!"), ("fileName", .str "a.txt")]))).1 =
      (400, errObj "Invalid base64 content: Incorrect padding") ∧
    (analyzeHandler envEmptyTxt "T" (some (.obj
      [("fileContent", .str "aGk="), ("fileName", .str "a.txt")]))).1 =
      (400, errObj "No text could be extracted from the document") ∧
    (analyzeHandler envLlmDown "T" (some (.obj
      [("fileContent", .str "aGk="), ("fileName", .str "a.txt")]))).1 =
      (500, errObj "Internal server error: Connection error") ∧
    "Invalid base64 content: Incorrect padding" ≠
      "fileContent and fileName are required" := by
  refine ⟨?_, ?_, ?_, ?_, ?_⟩
  · exact C7_validation_order.1 envW "T" _ rfl rfl
  · exact C7_validation_order.2.1 envBadB64 "T" _ (.str "!!") (.str "a.txt")
      "Incorrect padding" rfl rfl rfl rfl rfl
  · exact C7_validation_order.2.2.1 envEmptyTxt "T" _ (.str "aGk=") _ "a.txt"
      "" rfl rfl rfl (by decide) rfl rfl rfl
  · exact C7_validation_order.2.2.2.1 envLlmDown "T" _ (.str "aGk=") _
      "a.txt" "hello world" "Connection error" rfl rfl rfl (by decide) rfl
      rfl (by decide) rfl
  · exact (C7_validation_order.2.2.2.2.1.1 "Incorrect padding").1

/-! ### C10 -/

/-- C10: a `POST /analyze` body in which `fileContent` or `fileName` is
present but falsy (empty string, `null`, `0`, …) is rejected with the
same 400 "required" error as when the key is absent — the handler tests
falsiness, not key presence. -/
theorem C10_falsy_field_rejected (env : Env) (now : String)
    (o : List (String × JVal)) (v : JVal)
    (hv : dictGet o "fileContent" = some v ∨ dictGet o "fileName" = some v)
    (hfalsy : pyTruthy v = false) :
    (analyzeHandler env now (some (.obj o))).1 =
      (400, errObj "fileContent and fileName are required") ∧
    (analyzeHandler env now (some (.obj [("unrelated", .bool true)]))).1 =
      (400, errObj "fileContent and fileName are required") := by
  have hne : o.isEmpty = false := by
    cases o with
    | nil =>
      rcases hv with hv | hv <;> simp [dictGet] at hv
    | cons p rest => rfl
  have hreq : (!optTruthy (dictGet o "fileContent") ||
      !optTruthy (dictGet o "fileName")) = true := by
    rcases hv with hv | hv
    · rw [hv]
      have : optTruthy (some v) = false := hfalsy
      rw [this]
      rfl
    · rw [hv]
      have : optTruthy (some v) = false := hfalsy
      rw [this]
      simp
  refine ⟨?_, rfl⟩
  rw [analyzeHandler_required_error env now o hne hreq]

/-- C10 witness: an empty-string `fileContent` and a `null` `fileName`. -/
theorem C10_witness :
    (analyzeHandler envW "T" (some (.obj
      [("fileContent", .str ""), ("fileName", .str "a.txt")]))).1 =
      (400, errObj "fileContent and fileName are required") ∧
    (analyzeHandler envW "T" (some (.obj [("unrelated", .bool true)]))).1 =
      (400, errObj "fileContent and fileName are required") :=
  C10_falsy_field_rejected envW "T"
    [("fileContent", .str ""), ("fileName", .str "a.txt")] (.str "")
    (Or.inl rfl) rfl

/-! ### C4 -/

/-- C4 counterexample: in the batch handler there is no empty-text check.
With TXT extraction yielding `""`, the trace of a one-document batch
contains the model call on the empty document (third event), and the
entry succeeds rather than failing validation. -/
theorem C4_counterexample :
    ((batchHandler envEmptyTxt "T" (some (.obj [("documents", .arr
      [.obj [("fileContent", .str "aGk="),
             ("fileName", .str "a.txt")]])]))).2).get? 2 =
      some (.llmCall (analysisPrompt "")) ∧
    (batchHandler envEmptyTxt "T" (some (.obj [("documents", .arr
      [.obj [("fileContent", .str "aGk="),
             ("fileName", .str "a.txt")]])]))).1 =
      (200, .obj [("success", .bool true), ("totalDocuments", .num 1),
        ("results", .arr [.obj [("success", .bool true),
          ("fileName", .str "a.txt"),
          ("analysis", .obj [("analysis_timestamp", .str "T"),
            ("document_length", .num 0)])]]),
        ("processedAt", .str "T")]) :=
  ⟨rfl, rfl⟩

/-- C4 (amended to the single handler, where the check exists): empty
extracted text yields the 400 "no text extracted" error and the trace
shows no model call — only staging, extraction and cleanup. -/
theorem C4_empty_text_single (env : Env) (now : String)
    (o : List (String × JVal)) (fc : JVal) (content : Bytes)
    (file_name document_text : String)
    (hfc : dictGet o "fileContent" = some fc)
    (hfcT : pyTruthy fc = true)
    (hfn : dictGet o "fileName" = some (.str file_name))
    (hfnT : file_name ≠ "")
    (hdec : env.b64decode fc = .ok content)
    (hparse : parse_file env (tempStem 0 ++ pathSuffix file_name) content =
      .ok document_text)
    (htrim : pyStrip document_text = "") :
    analyzeHandler env now (some (.obj o)) =
      ((400, errObj "No text could be extracted from the document"),
       [.create (tempStem 0 ++ pathSuffix file_name),
        .extract (tempStem 0 ++ pathSuffix file_name),
        .unlink (tempStem 0 ++ pathSuffix file_name)]) := by
  rw [analyzeHandler_staged env now o fc content file_name hfc hfcT hfn
    hfnT hdec]
  rw [analyzeInner_empty_text hparse htrim]
  rfl

/-- C4 witness: a concrete empty TXT upload through `/analyze`. -/
theorem C4_witness :
    analyzeHandler envEmptyTxt "T" (some (.obj
      [("fileContent", .str "aGk="), ("fileName", .str "a.txt")])) =
      ((400, errObj "No text could be extracted from the document"),
       [.create "/tmp/tmp0.txt", .extract "/tmp/tmp0.txt",
        .unlink "/tmp/tmp0.txt"]) :=
  C4_empty_text_single envEmptyTxt "T" _ (.str "aGk=") _ "a.txt" ""
    rfl rfl rfl (by decide) rfl rfl rfl

/-! ### C8 -/

/-- The inner block of the `/analyze` handler never stages a file itself. -/
theorem analyzeInner_no_create (env : Env) (now file_name tpath : String)
    (content : Bytes) (p : String) :
    Ev.create p ∉ (analyzeInner env now file_name tpath content).2 := by
  cases h : parse_file env tpath content with
  | error e => simp [analyzeInner, h]
  | ok dt =>
    by_cases ht : pyStrip dt = ""
    · simp [analyzeInner, h, ht]
    · cases ha : analyze env now dt with
      | error e2 => simp [analyzeInner, h, ht, ha]
      | ok ar => simp [analyzeInner, h, ht, ha]

/-- In a trace of the form `create t :: ev ++ [unlink t]` where `ev`
stages nothing, every staged file is unlinked. -/
theorem create_unlink_of_shape {tr : List Ev} {t : String} {ev : List Ev}
    (h : tr = .create t :: ev ++ [.unlink t])
    (hnc : ∀ p, Ev.create p ∉ ev) (p : String)
    (hc : Ev.create p ∈ tr) : Ev.unlink p ∈ tr := by
  subst h
  rcases List.mem_cons.mp hc with hc1 | hc2
  · injection hc1 with h2
    subst h2
    exact List.mem_cons_of_mem _ (List.mem_append_right _
      (List.mem_singleton.mpr rfl))
  · rcases List.mem_append.mp hc2 with hc3 | hc4
    · exact absurd hc3 (hnc p)
    · exact Ev.noConfusion (List.mem_singleton.mp hc4)

/-- Every execution of the `/analyze` handler leaves a trace that is
either empty or `create t :: ev ++ [unlink t]` with no staging in `ev`. -/
theorem analyzeHandler_trace_shape (env : Env) (now : String)
    (body : Option JVal) :
    (analyzeHandler env now body).2 = [] ∨
    ∃ t ev, (analyzeHandler env now body).2 = .create t :: ev ++ [.unlink t] ∧
      ∀ p, Ev.create p ∉ ev := by
  rcases body with _ | data
  · left; rfl
  · rcases data with _ | b | n | s | l | o
    · left; rfl
    · dsimp only [analyzeHandler]
      split
      · left; rfl
      · left; rfl
    · dsimp only [analyzeHandler]
      split
      · left; rfl
      · left; rfl
    · dsimp only [analyzeHandler]
      split
      · left; rfl
      · left; rfl
    · dsimp only [analyzeHandler]
      split
      · left; rfl
      · left; rfl
    · dsimp only [analyzeHandler]
      split
      · left; rfl
      · split
        · left; rfl
        · split
          · left; rfl
          · split
            · right
              exact ⟨_, _, rfl, fun p => analyzeInner_no_create _ _ _ _ _ p⟩
            · left; rfl

/-- Cleanup holds on every exit path of the `/analyze` handler. -/
theorem analyzeHandler_cleanup (env : Env) (now : String)
    (body : Option JVal) (p : String)
    (hc : Ev.create p ∈ (analyzeHandler env now body).2) :
    Ev.unlink p ∈ (analyzeHandler env now body).2 := by
  rcases analyzeHandler_trace_shape env now body with h | ⟨t, ev, h, hnc⟩
  · rw [h] at hc
    simp at hc
  · exact create_unlink_of_shape h hnc p hc

/-- Every batch entry leaves a trace that is either empty or
`create t :: ev ++ [unlink t]` with no staging in `ev`. -/
theorem processOne_trace_shape (env : Env) (now : String) (i : Nat)
    (doc : JVal) :
    (processOne env now i doc).2 = [] ∨
    ∃ t ev, (processOne env now i doc).2 = .create t :: ev ++ [.unlink t] ∧
      ∀ p, Ev.create p ∉ ev := by
  rcases doc with _ | b | n | s | l | d
  · left; rfl
  · left; rfl
  · left; rfl
  · left; rfl
  · left; rfl
  · dsimp only [processOne]
    split
    · left; rfl
    · split
      · left; rfl
      · split
        · left; rfl
        · split
          · right
            refine ⟨_, _, rfl, fun p => ?_⟩
            split
            · simp
            · split
              · simp
              · simp
          · left; rfl

/-- Cleanup holds for every batch entry. -/
theorem processOne_cleanup (env : Env) (now : String) (i : Nat) (doc : JVal)
    (p : String) (hc : Ev.create p ∈ (processOne env now i doc).2) :
    Ev.unlink p ∈ (processOne env now i doc).2 := by
  rcases processOne_trace_shape env now i doc with h | ⟨t, ev, h, hnc⟩
  · rw [h] at hc
    simp at hc
  · exact create_unlink_of_shape h hnc p hc

/-- Cleanup holds across the whole batch loop. -/
theorem batchLoop_cleanup (env : Env) (now : String) :
    ∀ (docs : List JVal) (i : Nat) (p : String),
      Ev.create p ∈ (batchLoop env now i docs).2 →
      Ev.unlink p ∈ (batchLoop env now i docs).2 := by
  intro docs
  induction docs with
  | nil =>
    intro i p hc
    simp [batchLoop] at hc
  | cons doc rest ih =>
    intro i p hc
    rcases hp : processOne env now i doc with ⟨r, ev⟩
    cases r with
    | error e =>
      have htr : (batchLoop env now i (doc :: rest)).2 = ev := by
        simp only [batchLoop]
        rw [hp]
      rw [htr] at hc ⊢
      have h2 := processOne_cleanup env now i doc p (by rw [hp]; exact hc)
      rw [hp] at h2
      exact h2
    | ok entry =>
      rcases hb : batchLoop env now (i + 1) rest with ⟨r2, evs⟩
      have htr : (batchLoop env now i (doc :: rest)).2 = ev ++ evs := by
        simp only [batchLoop]
        rw [hp, hb]
      have hres : (batchLoop env now (i + 1) rest).2 = evs := by
        rw [hb]
      rw [htr] at hc ⊢
      rw [List.mem_append] at hc ⊢
      rcases hc with hc | hc
      · left
        have h2 := processOne_cleanup env now i doc p (by rw [hp]; exact hc)
        rw [hp] at h2
        exact h2
      · right
        have h2 := ih (i + 1) p (by rw [hres]; exact hc)
        rw [hres] at h2
        exact h2

/-- The `/batch-analyze` handler's trace is empty or exactly the loop's. -/
theorem batchHandler_trace_eq (env : Env) (now : String)
    (body : Option JVal) :
    (batchHandler env now body).2 = [] ∨
    ∃ docs, (batchHandler env now body).2 = (batchLoop env now 0 docs).2 := by
  rcases body with _ | data
  · left; rfl
  · rcases data with _ | b | n | s | l | o
    · left; rfl
    · left; rfl
    · left; rfl
    · left; rfl
    · left; rfl
    · dsimp only [batchHandler]
      split
      · left; rfl
      · split
        · rename_i docs heq
          right
          refine ⟨docs, ?_⟩
          rcases hb : batchLoop env now 0 docs with ⟨r, ev⟩
          cases r <;> rfl
        · left; rfl

/-- Cleanup holds on every exit path of the `/batch-analyze` handler. -/
theorem batchHandler_cleanup (env : Env) (now : String) (body : Option JVal)
    (p : String) (hc : Ev.create p ∈ (batchHandler env now body).2) :
    Ev.unlink p ∈ (batchHandler env now body).2 := by
  rcases batchHandler_trace_eq env now body with h | ⟨docs, h⟩
  · rw [h] at hc
    simp at hc
  · rw [h] at hc ⊢
    exact batchLoop_cleanup env now docs 0 p hc

/-- C8 counterexample: the staged file is not released immediately after
extraction — on a successful `/analyze` run the model call sits between
the extraction read and the unlink, so the temp file is held through the
(slow) network call and only released when the handler's block exits. -/
theorem C8_counterexample :
    (analyzeHandler envW "T" (some (.obj
      [("fileContent", .str "aGk="), ("fileName", .str "a.txt")]))).2 =
      [.create "/tmp/tmp0.txt", .extract "/tmp/tmp0.txt",
       .llmCall (analysisPrompt "hello world"), .unlink "/tmp/tmp0.txt"] :=
  rfl

/-- C8 (amended): in both handlers, every staged temporary file is
unlinked on every exit path — success, validation failure, or exception —
but release happens when the staged block exits (after analysis), not
immediately after extraction. -/
theorem C8_cleanup_every_path (env : Env) (now : String) (body : Option JVal)
    (p : String) :
    (Ev.create p ∈ (analyzeHandler env now body).2 →
      Ev.unlink p ∈ (analyzeHandler env now body).2) ∧
    (Ev.create p ∈ (batchHandler env now body).2 →
      Ev.unlink p ∈ (batchHandler env now body).2) :=
  ⟨analyzeHandler_cleanup env now body p, batchHandler_cleanup env now body p⟩

/-- C8 witness: a failing single request (unsupported extension) and a
succeeding batch request both unlink their staged file. -/
theorem C8_witness :
    Ev.unlink "/tmp/tmp0.bin" ∈ (analyzeHandler envW "T" (some (.obj
      [("fileContent", .str "aGk="), ("fileName", .str "a.bin")]))).2 ∧
    Ev.unlink "/tmp/tmp0.txt" ∈ (batchHandler envW "T" (some (.obj
      [("documents", .arr [.obj [("fileContent", .str "aGk="),
        ("fileName", .str "a.txt")]])]))).2 :=
  ⟨(C8_cleanup_every_path envW "T" (some (.obj
      [("fileContent", .str "aGk="), ("fileName", .str "a.bin")]))
      "/tmp/tmp0.bin").1 (by decide),
   (C8_cleanup_every_path envW "T" (some (.obj
      [("documents", .arr [.obj [("fileContent", .str "aGk="),
        ("fileName", .str "a.txt")]])])) "/tmp/tmp0.txt").2 (by decide)⟩

/-! ### C3 -/

/-- A batch entry that is a JSON object never lets an exception escape
its per-entry `except` block. -/
theorem processOne_obj_isOk (env : Env) (now : String) (i : Nat)
    (m : List (String × JVal)) :
    ∃ e, (processOne env now i (.obj m)).1 = .ok e := by
  dsimp only [processOne]
  split
  · exact ⟨_, rfl⟩
  · split
    · exact ⟨_, rfl⟩
    · split
      · exact ⟨_, rfl⟩
      · split
        · exact ⟨_, rfl⟩
        · exact ⟨_, rfl⟩

/-- The entry an object document contributes is `entryOf`. -/
theorem processOne_obj_fst (env : Env) (now : String) (i : Nat)
    (m : List (String × JVal)) :
    (processOne env now i (.obj m)).1 = .ok (entryOf env now i (.obj m)) := by
  rcases processOne_obj_isOk env now i m with ⟨e, he⟩
  unfold entryOf
  rw [he]

/-- On all-object documents the loop aborts nowhere and returns exactly
the independent per-entry results. -/
theorem batchLoop_fst_ok (env : Env) (now : String) :
    ∀ docs : List JVal, (∀ d ∈ docs, ∃ m, d = .obj m) →
      ∀ i, (batchLoop env now i docs).1 =
        .ok (batchEntries env now i docs) := by
  intro docs
  induction docs with
  | nil => intro _ i; rfl
  | cons doc rest ih =>
    intro hwf i
    obtain ⟨m, rfl⟩ := hwf doc (List.mem_cons_self _ _)
    have hwf2 : ∀ d ∈ rest, ∃ m2, d = .obj m2 := fun d hd =>
      hwf d (List.mem_cons_of_mem _ hd)
    rcases hp : processOne env now i (.obj m) with ⟨r, ev⟩
    have hfst : r = .ok (entryOf env now i (.obj m)) := by
      have h2 := processOne_obj_fst env now i m
      rw [hp] at h2
      exact h2
    subst hfst
    rcases hb : batchLoop env now (i + 1) rest with ⟨r2, evs⟩
    have hr2 : r2 = .ok (batchEntries env now (i + 1) rest) := by
      have h3 := ih hwf2 (i + 1)
      rw [hb] at h3
      exact h3
    subst hr2
    have h4 : (batchLoop env now i (.obj m :: rest)).1 =
        Except.map (fun l => entryOf env now i (.obj m) :: l)
          (.ok (batchEntries env now (i + 1) rest)) := by
      simp only [batchLoop]
      rw [hp, hb]
    rw [h4]
    rfl

theorem batchEntries_length (env : Env) (now : String) :
    ∀ (docs : List JVal) (i : Nat),
      (batchEntries env now i docs).length = docs.length := by
  intro docs
  induction docs with
  | nil => intro i; rfl
  | cons d r ih =>
    intro i
    simp only [batchEntries, List.length_cons, ih]

theorem batchEntries_get (env : Env) (now : String) :
    ∀ (docs : List JVal) (i j : Nat) (doc : JVal), docs.get? j = some doc →
      (batchEntries env now i docs).get? j =
        some (entryOf env now (i + j) doc) := by
  intro docs
  induction docs with
  | nil =>
    intro i j doc h
    simp at h
  | cons d r ih =>
    intro i j doc h
    cases j with
    | zero =>
      simp only [List.get?] at h
      injection h with h
      subst h
      simp [batchEntries]
    | succ j2 =>
      simp only [List.get?] at h
      have h2 := ih (i + 1) j2 doc h
      have h3 : i + 1 + j2 = i + (j2 + 1) := by omega
      rw [h3] at h2
      simpa [batchEntries] using h2

/-- The shape of an object document's entry: success record or the
per-entry error record. -/
theorem processOne_obj_shape (env : Env) (now : String) (i : Nat)
    (m : List (String × JVal)) :
    (∃ fn ar, (processOne env now i (.obj m)).1 =
      .ok (.obj [("success", .bool true), ("fileName", .str fn),
        ("analysis", ar)])) ∨
    (∃ e, (processOne env now i (.obj m)).1 = .ok (errEntry m e)) := by
  rcases hfc : dictGet m "fileContent" with _ | fc
  · right
    exact ⟨env.keyErr "fileContent", by simp [processOne, hfc]⟩
  · rcases hdec : env.b64decode fc with e | content
    · right
      exact ⟨e, by simp [processOne, hfc, hdec]⟩
    · rcases hfn : dictGet m "fileName" with _ | fnv
      · right
        exact ⟨env.keyErr "fileName", by simp [processOne, hfc, hdec, hfn]⟩
      · rcases fnv with _ | b | n | s | l | d2
        · right
          exact ⟨env.pathTypeErr .null, by simp [processOne, hfc, hdec, hfn]⟩
        · right
          exact ⟨env.pathTypeErr (.bool b),
            by simp [processOne, hfc, hdec, hfn]⟩
        · right
          exact ⟨env.pathTypeErr (.num n),
            by simp [processOne, hfc, hdec, hfn]⟩
        · rcases hp : parse_file env (tempStem i ++ pathSuffix s) content
            with e | dt
          · right
            exact ⟨e, by simp [processOne, hfc, hdec, hfn, hp]⟩
          · rcases ha : analyze env now dt with e2 | ar
            · right
              exact ⟨e2, by simp [processOne, hfc, hdec, hfn, hp, ha]⟩
            · left
              exact ⟨s, ar, by simp [processOne, hfc, hdec, hfn, hp, ha]⟩
        · right
          exact ⟨env.pathTypeErr (.arr l),
            by simp [processOne, hfc, hdec, hfn]⟩
        · right
          exact ⟨env.pathTypeErr (.obj d2),
            by simp [processOne, hfc, hdec, hfn]⟩

theorem entryOf_obj_shape (env : Env) (now : String) (i : Nat)
    (m : List (String × JVal)) :
    (∃ fn ar, entryOf env now i (.obj m) =
      .obj [("success", .bool true), ("fileName", .str fn),
        ("analysis", ar)]) ∨
    (∃ e, entryOf env now i (.obj m) = errEntry m e) := by
  rcases processOne_obj_shape env now i m with ⟨fn, ar, h⟩ | ⟨e, h⟩
  · left
    refine ⟨fn, ar, ?_⟩
    unfold entryOf
    rw [h]
  · right
    refine ⟨e, ?_⟩
    unfold entryOf
    rw [h]

/-- The well-formed-batch reduction of the handler. -/
theorem batchHandler_arr (env : Env) (now : String)
    (o : List (String × JVal)) (docs : List JVal)
    (hdocs : dictGet o "documents" = some (.arr docs)) (hne : docs ≠ [])
    (hwf : ∀ d ∈ docs, ∃ m, d = .obj m) :
    (batchHandler env now (some (.obj o))).1 =
      (200, .obj [("success", .bool true),
        ("totalDocuments", .num docs.length),
        ("results", .arr (batchEntries env now 0 docs)),
        ("processedAt", .str now)]) := by
  have htr : pyTruthy (.arr docs) = true := by
    cases docs with
    | nil => exact absurd rfl hne
    | cons d r => rfl
  rcases hb : batchLoop env now 0 docs with ⟨r, ev⟩
  have hr : r = .ok (batchEntries env now 0 docs) := by
    have h2 := batchLoop_fst_ok env now docs hwf 0
    rw [hb] at h2
    exact h2
  subst hr
  dsimp only [batchHandler]
  rw [hdocs]
  simp only [Option.getD_some, htr, Bool.not_true]
  rw [hb]
  rfl

/-- C3: a well-formed non-empty batch (each entry a JSON object) yields
HTTP 200, `totalDocuments = n`, and exactly `n` results in input order,
the `j`-th determined by the `j`-th document alone; a failing entry gives
a record with `success: false`, an error message, and a `fileName` that
is `"unknown"` when the document carries none. -/
theorem C3_batch_independence (env : Env) (now : String)
    (o : List (String × JVal)) (docs : List JVal)
    (hdocs : dictGet o "documents" = some (.arr docs)) (hne : docs ≠ [])
    (hwf : ∀ d ∈ docs, ∃ m, d = .obj m) :
    (batchHandler env now (some (.obj o))).1 =
      (200, .obj [("success", .bool true),
        ("totalDocuments", .num docs.length),
        ("results", .arr (batchEntries env now 0 docs)),
        ("processedAt", .str now)]) ∧
    (batchEntries env now 0 docs).length = docs.length ∧
    (∀ j doc, docs.get? j = some doc →
      (batchEntries env now 0 docs).get? j = some (entryOf env now j doc)) ∧
    (∀ j m, docs.get? j = some (.obj m) →
      jGet (entryOf env now j (.obj m)) "success" = some (.bool true) ∨
      (jGet (entryOf env now j (.obj m)) "success" = some (.bool false) ∧
       (∃ msg, jGet (entryOf env now j (.obj m)) "error" = some (.str msg)) ∧
       (∃ fn, jGet (entryOf env now j (.obj m)) "fileName" = some fn ∧
         (dictGet m "fileName" = none → fn = .str "unknown")))) := by
  refine ⟨batchHandler_arr env now o docs hdocs hne hwf, ?_, ?_, ?_⟩
  · exact batchEntries_length env now docs 0
  · intro j doc h
    have h2 := batchEntries_get env now docs 0 j doc h
    simpa using h2
  · intro j m _
    rcases entryOf_obj_shape env now j m with ⟨fn, ar, h⟩ | ⟨e, h⟩
    · left
      rw [h]
      rfl
    · right
      rw [h]
      refine ⟨rfl, ⟨e, rfl⟩, ⟨(dictGet m "fileName").getD (.str "unknown"),
        rfl, fun hnone => ?_⟩⟩
      rw [hnone]
      rfl

/-- The three-document batch used as the C3 witness: the second entry
has a corrupt (non-string) `fileContent`. -/
def docsW : List JVal :=
  [.obj [("fileContent", .str "aGk="), ("fileName", .str "a.txt")],
   .obj [("fileContent", .num 5), ("fileName", .str "b.txt")],
   .obj [("fileContent", .str "aGk="), ("fileName", .str "c.txt")]]

/-- C3 witness: three documents, the second with a corrupt (non-string)
`fileContent`, processed into three ordered results. -/
theorem C3_witness :
    (batchHandler envW "T" (some (.obj [("documents", .arr docsW)]))).1 =
      (200, .obj [("success", .bool true),
        ("totalDocuments", .num 3),
        ("results", .arr (batchEntries envW "T" 0 docsW)),
        ("processedAt", .str "T")]) :=
  (C3_batch_independence envW "T" [("documents", .arr docsW)] docsW rfl
    (by simp [docsW])
    (by
      intro d hd
      simp only [docsW] at hd
      cases hd with
      | head => exact ⟨_, rfl⟩
      | tail _ hd2 =>
        cases hd2 with
        | head => exact ⟨_, rfl⟩
        | tail _ hd3 =>
          cases hd3 with
          | head => exact ⟨_, rfl⟩
          | tail _ hd4 => cases hd4)).1

/-! ### C9 -/

/-- C9: any request whose path matches no registered route gets the 404
handler's JSON body, which lists exactly the four API endpoints. -/
theorem C9_unmatched_route (env : Env) (now method path : String)
    (body : Option JVal)
    (h : path ∉ (["/", "/analyze", "/batch-analyze", "/health", "/test"] :
      List String)) :
    service env now method path body = ((404, .json notFoundBody), []) ∧
    jGet notFoundBody "available_endpoints" =
      some (.arr [.str "/analyze", .str "/batch-analyze", .str "/health",
        .str "/test"]) := by
  refine ⟨?_, rfl⟩
  have hfind : routeTable.find? (fun r => r.1 == path) = none := by
    rw [List.find?_eq_none]
    intro r hr
    fin_cases hr <;>
      · simp only [beq_iff_eq]
        intro he
        exact h (he ▸ (by decide))
  simp [service, hfind]

/-- C9 witness: `GET /unknown-path`. -/
theorem C9_witness :
    service envW "T" "GET" "/unknown-path" none =
      ((404, .json notFoundBody), []) ∧
    jGet notFoundBody "available_endpoints" =
      some (.arr [.str "/analyze", .str "/batch-analyze", .str "/health",
        .str "/test"]) :=
  C9_unmatched_route envW "T" "GET" "/unknown-path" none (by decide)
